import Mathlib

/-!
Shallow embedding of the session-token exchange core of the
`broker-auth-web` repository:

* the server endpoint `POST /api/web/initialize-session` (Express server,
  lines 161-242 of the server file), and
* the client-side handoff controller `handleSessionTokenExchange` together
  with `checkForSessionTokenInUrl` and `showDebugInfo`
  (`web-app/public/app.js`).

Modelling conventions:

* A JWT, as seen by `jwt.decode(sessionToken, { complete: true })`, is
  modelled as a `RawToken`: a structural well-formedness flag (whether
  `jwt.decode` returns a non-null object with a payload), a signature
  validity flag, and the decoded payload.  The library function `decode` performs
  base64/JSON parsing only and never consults the signature, which the
  embedding makes explicit: `jwtDecode` ignores the `sigValid` field.
* JS `undefined`/missing claims are `Option`; the JS truthiness test
  `payload.exp && ...` treats both a missing claim and the number `0` as
  falsy, and the embedding mirrors that.
* Time: the code compares `payload.exp < Date.now() / 1000` where `exp` is
  in integer seconds and `Date.now()` in milliseconds.  The embedding takes
  the current time `nowMs` in milliseconds and uses the equivalent integer
  comparison `1000 * exp < nowMs` (exact for integer `exp`).
* The endpoint never reads or writes any replay/consumed-token store; to be
  able to state replay properties the embedding threads an explicit
  `consumed : List String` server state through the handler, which the
  handler (faithfully to the source) passes through untouched.
* The `catch` block of the endpoint (lines 235-241) is embedded as the
  separate function `sessionInitCatch`, taking the environment and the
  caught exception message.
-/

namespace BrokerAuthWeb

/-- Decoded JWT payload: the claims the endpoint reads.  `type` is the
token-kind discriminator claim, `jti` the token identifier used for replay
detection in the documented design (the endpoint itself never reads it). -/
structure JwtPayload where
  sub : Option String
  oid : Option String
  email : Option String
  preferred_username : Option String
  name : Option String
  exp : Option Nat
  type : Option String
  jti : Option String
deriving DecidableEq

/-- A raw token string as handed to `jwt.decode`: whether it structurally
parses (`wellFormed`), whether its signature would verify against the
issuer key (`sigValid`), and the claims it carries. -/
structure RawToken where
  wellFormed : Bool
  sigValid : Bool
  payload : JwtPayload
deriving DecidableEq

/-- `jwt.decode(sessionToken, { complete: true })` followed by the null
checks `!decoded || !decoded.payload`: structural parsing only.  The
signature flag is deliberately not consulted, mirroring the source, which
calls `decode` (not `verify`). -/
def jwtDecode (t : RawToken) : Option JwtPayload :=
  if t.wellFormed then some t.payload else none

/-- JS `a || b` on string-or-undefined values: `undefined` and the empty
string are falsy. -/
def jsOr (a b : Option String) : Option String :=
  match a with
  | some s => if s = "" then b else some s
  | none => b

/-- The JS truthiness-guarded expiry test
`payload.exp && payload.exp < Date.now() / 1000`: skipped when the claim is
absent or `0`; otherwise the strict comparison, in milliseconds. -/
def expCheck (e : Option Nat) (nowMs : Nat) : Bool :=
  match e with
  | none => false
  | some v => if v = 0 then false else if 1000 * v < nowMs then true else false

/-- The `sessionData` object serialized into the session cookie. -/
structure SessionData where
  userId : Option String
  email : Option String
  name : Option String
  authenticatedAt : Nat
deriving DecidableEq

/-- The cookie set by `res.cookie("session", ..., opts)`, with its options. -/
structure SessionCookie where
  value : SessionData
  httpOnly : Bool
  secure : Bool
  sameSite : String
  maxAge : Nat
deriving DecidableEq

/-- The `user` object of the success JSON body. -/
structure UserInfo where
  name : Option String
  email : Option String
  username : Option String
deriving DecidableEq

/-- An HTTP response of the endpoint.  The JSON body is mirrored field by
field: failure bodies carry `error` (here `errorMsg`) and, in development
mode only, `details`; the success body carries `success`, `message` and
`user`.  The session credential travels only in the `cookie` field (a
`Set-Cookie` header), never as a body field — the body type has no
credential field, mirroring the source JSON. -/
structure ExchangeResponse where
  status : Nat
  errorMsg : Option String
  details : Option String
  message : Option String
  success : Bool
  user : Option UserInfo
  cookie : Option SessionCookie
deriving DecidableEq

/-- A failure response: `res.status(status).json({ error: msg })`. -/
def errorResponse (status : Nat) (msg : String) : ExchangeResponse :=
  { status := status, errorMsg := some msg, details := none, message := none
    success := false, user := none, cookie := none }

/-- The success path of the endpoint (server file, lines 207-231): build
`sessionData` from the claims, set the HTTP-only session cookie with its
options, and return the success JSON body. -/
def successResponse (p : JwtPayload) (nowMs : Nat) (nodeEnv : String) :
    ExchangeResponse :=
  let sessionData : SessionData :=
    { userId := jsOr p.sub p.oid
      email := jsOr p.email p.preferred_username
      name := p.name
      authenticatedAt := nowMs }
  let cookie : SessionCookie :=
    { value := sessionData
      httpOnly := true
      secure := nodeEnv == "production"
      sameSite := "lax"
      maxAge := 24 * 60 * 60 * 1000 }
  { status := 200, errorMsg := none, details := none
    message := some "Session initialized successfully"
    success := true
    user := some { name := p.name
                   email := jsOr p.email p.preferred_username
                   username := jsOr p.preferred_username p.email }
    cookie := some cookie }

/-- The endpoint `POST /api/web/initialize-session` (server file, lines
161-233): missing-token check, structural decode, expiry check, token-type
check, then the success path of `successResponse`.  The `consumed` state is
the (hypothetical) replay store; the handler neither reads nor writes it,
which the embedding shows by returning it unchanged on every path. -/
def initializeSession (sessionToken : Option RawToken) (nowMs : Nat)
    (nodeEnv : String) (consumed : List String) :
    ExchangeResponse × List String :=
  match sessionToken with
  | none => (errorResponse 400 "Session token required", consumed)
  | some tok =>
    match jwtDecode tok with
    | none => (errorResponse 401 "Invalid session token format", consumed)
    | some p =>
      if expCheck p.exp nowMs then
        (errorResponse 401 "Session token expired", consumed)
      else if p.type ≠ some "session_init" then
        (errorResponse 401 "Invalid token type", consumed)
      else
        (successResponse p nowMs nodeEnv, consumed)

/-- The `catch` block of the endpoint (lines 235-241): a 401 with the generic
error string, exposing the exception message as `details` only when
`NODE_ENV === "development"`. -/
def sessionInitCatch (nodeEnv : String) (errMessage : String) :
    ExchangeResponse :=
  { status := 401, errorMsg := some "Session initialization failed"
    details := if nodeEnv = "development" then some errMessage else none
    message := none, success := false, user := none, cookie := none }

/-- The failure classes of the endpoint, i.e. which early return fires. -/
inductive FailClass
  | missingToken
  | malformed
  | expired
  | wrongKind
deriving DecidableEq

/-- Which failing branch (if any) a given request hits; mirrors the branch
structure of `initializeSession`.  `none` means the request succeeds. -/
def failClass (sessionToken : Option RawToken) (nowMs : Nat) :
    Option FailClass :=
  match sessionToken with
  | none => some .missingToken
  | some tok =>
    match jwtDecode tok with
    | none => some .malformed
    | some p =>
      if expCheck p.exp nowMs then some .expired
      else if p.type ≠ some "session_init" then some .wrongKind
      else none

/-- The fixed generic error string each failing branch responds with. -/
def failMessage : FailClass → String
  | .missingToken => "Session token required"
  | .malformed => "Invalid session token format"
  | .expired => "Session token expired"
  | .wrongKind => "Invalid token type"

/-- Outcome of the client call `fetch("/api/web/initialize-session", ...)`:
the promise either rejects (network error) or resolves with a response
whose `ok` flag and error body the handler inspects. -/
inductive FetchOutcome
  | networkError
  | httpResponse (ok : Bool) (errorMsg : Option String)
deriving DecidableEq

/-- Observable steps of `handleSessionTokenExchange` in program order. -/
inductive ClientEvent
  | exchangeRequested
  | exchangeResultKnown
  | tokenScrubbed
  | renderedAuthenticated
  | renderedFallback
deriving DecidableEq

/-- Event trace of `handleSessionTokenExchange(sessionToken)` in
`app.js` (lines 137-189), one trace per fetch outcome, in the source
control-flow order: the `fetch` is awaited first; only after it resolves
does `window.history.replaceState` scrub the token from the location; if
the fetch rejects, control jumps to the `catch` block and the scrub line
never runs. -/
def handleSessionTokenExchange (o : FetchOutcome) : List ClientEvent :=
  match o with
  | .networkError =>
      [.exchangeRequested, .exchangeResultKnown, .renderedFallback]
  | .httpResponse true _ =>
      [.exchangeRequested, .exchangeResultKnown, .tokenScrubbed,
       .renderedAuthenticated]
  | .httpResponse false _ =>
      [.exchangeRequested, .exchangeResultKnown, .tokenScrubbed,
       .renderedFallback]

/-- Whether the session token is still present in the browser-visible
location after the handler has run: true exactly when the scrub step never
executed. -/
def urlStillHasToken (o : FetchOutcome) : Bool :=
  !(handleSessionTokenExchange o).contains .tokenScrubbed

/-- The message of the `Error` the client constructs from a failing
exchange response: `errorData.error || "Session initialization failed"`
(with the `.catch` fallback body when the response is not JSON). -/
def clientErrorMessage (errorMsg : Option String) : String :=
  match errorMsg with
  | some e => if e = "" then "Session initialization failed" else e
  | none => "Session initialization failed"

/-- A fully valid session-init token: well-formed, valid signature, kind
`session_init`, expiry at 2000 s after the epoch, token id `tok-1`. -/
def validPayload : JwtPayload :=
  { sub := some "user-1", oid := none
    email := some "user@example.com"
    preferred_username := some "user@example.com"
    name := some "User One"
    exp := some 2000
    type := some "session_init"
    jti := some "tok-1" }

/-- A fully valid token built on `validPayload`. -/
def validToken : RawToken :=
  { wellFormed := true, sigValid := true, payload := validPayload }

/-- A structurally well-formed token whose signature does not verify. -/
def badSigToken : RawToken :=
  { wellFormed := true, sigValid := false, payload := validPayload }

/-- A token that is both of the wrong kind and already expired. -/
def wrongKindExpiredToken : RawToken :=
  { wellFormed := true, sigValid := true
    payload := { validPayload with type := some "access", exp := some 10 } }

/-- A structurally malformed raw token. -/
def malformedToken : RawToken :=
  { wellFormed := false, sigValid := false, payload := validPayload }

/-- A well-formed `session_init` token carrying no expiry claim at all. -/
def noExpToken : RawToken :=
  { wellFormed := true, sigValid := true
    payload := { validPayload with exp := none } }

/-- A well-formed `session_init` token whose expiry lies in the past. -/
def expiredToken : RawToken :=
  { wellFormed := true, sigValid := true
    payload := { validPayload with exp := some 10 } }

/-- A well-formed, unexpired token whose kind claim is not `session_init`. -/
def wrongKindToken : RawToken :=
  { wellFormed := true, sigValid := true
    payload := { validPayload with type := some "access" } }

/-- Helper: the endpoint passes the replay store through unchanged on every
path — it contains no read or write of any consumed-token state. -/
theorem initSession_state_unchanged (st : Option RawToken) (nowMs : Nat)
    (env : String) (consumed : List String) :
    (initializeSession st nowMs env consumed).2 = consumed := by
  cases st with
  | none => rfl
  | some tok =>
    simp only [initializeSession]
    cases jwtDecode tok with
    | none => rfl
    | some p =>
      by_cases he : expCheck p.exp nowMs <;>
        by_cases hk : p.type = some "session_init" <;> simp [he, hk]

/-- Helper: the response of the endpoint is fully determined by the failure
class of the request; failing requests get the fixed generic error body of
their class with a 400/401 status, successful ones get `successResponse`. -/
theorem initSession_spec (st : Option RawToken) (nowMs : Nat) (env : String)
    (consumed : List String) :
    ((initializeSession st nowMs env consumed).1.errorMsg =
      Option.map failMessage (failClass st nowMs)) ∧
    ((initializeSession st nowMs env consumed).1.details = none) ∧
    (∀ fc, failClass st nowMs = some fc →
      (initializeSession st nowMs env consumed).1 =
        errorResponse (if fc = FailClass.missingToken then 400 else 401)
          (failMessage fc)) ∧
    (failClass st nowMs = none → ∃ tok p, st = some tok ∧
      jwtDecode tok = some p ∧
      (initializeSession st nowMs env consumed).1 =
        successResponse p nowMs env) ∧
    ((initializeSession st nowMs env consumed).1.status = 200 ↔
      failClass st nowMs = none) := by
  cases st with
  | none =>
    refine ⟨rfl, rfl, ?_, ?_, ?_⟩
    · rintro fc h
      simp only [failClass, Option.some.injEq] at h
      subst h
      rfl
    · rintro h
      simp [failClass] at h
    · simp [initializeSession, failClass, errorResponse]
  | some tok =>
    cases hd : jwtDecode tok with
    | none =>
      refine ⟨?_, ?_, ?_, ?_, ?_⟩
      · simp [initializeSession, failClass, hd, errorResponse, failMessage]
      · simp [initializeSession, hd, errorResponse]
      · rintro fc h
        simp only [failClass, hd, Option.some.injEq] at h
        subst h
        simp [initializeSession, hd, failMessage]
      · rintro h
        simp [failClass, hd] at h
      · simp [initializeSession, failClass, hd, errorResponse]
    | some p =>
      by_cases he : expCheck p.exp nowMs
      · refine ⟨?_, ?_, ?_, ?_, ?_⟩
        · simp [initializeSession, failClass, hd, he, errorResponse, failMessage]
        · simp [initializeSession, hd, he, errorResponse]
        · rintro fc h
          simp [failClass, hd, he] at h
          subst h
          simp [initializeSession, hd, he, failMessage]
        · rintro h
          simp [failClass, hd, he] at h
        · simp [initializeSession, failClass, hd, he, errorResponse]
      · by_cases hk : p.type = some "session_init"
        · refine ⟨?_, ?_, ?_, ?_, ?_⟩
          · simp [initializeSession, failClass, hd, he, hk, successResponse]
          · simp [initializeSession, hd, he, hk, successResponse]
          · rintro fc h
            simp [failClass, hd, he, hk] at h
          · rintro _
            exact ⟨tok, p, rfl, hd, by simp [initializeSession, hd, he, hk]⟩
          · simp [initializeSession, failClass, hd, he, hk, successResponse]
        · refine ⟨?_, ?_, ?_, ?_, ?_⟩
          · simp [initializeSession, failClass, hd, he, hk, errorResponse, failMessage]
          · simp [initializeSession, hd, he, hk, errorResponse]
          · rintro fc h
            simp [failClass, hd, he, hk] at h
            subst h
            simp [initializeSession, hd, he, hk, failMessage]
          · rintro h
            simp [failClass, hd, he, hk] at h
          · simp [initializeSession, failClass, hd, he, hk, errorResponse]

/-- C1: the claim promises single-use redemption — a second exchange with
the same tokenId returns Replayed — but the endpoint has no replay store
at all: presenting the very same valid token twice succeeds both times,
and no tokenId is ever recorded as consumed. -/
theorem C1_second_exchange_succeeds_again :
    (initializeSession (some validToken) 1000000 "production" []).1.status = 200 ∧
    (initializeSession (some validToken) 1000000 "production" []).1.success = true ∧
    (initializeSession (some validToken) 1000000 "production"
      (initializeSession (some validToken) 1000000 "production" []).2).1.status = 200 ∧
    (initializeSession (some validToken) 1000000 "production"
      (initializeSession (some validToken) 1000000 "production" []).2).1.success = true ∧
    (initializeSession (some validToken) 1000000 "production" []).2 = [] := by
  decide

/-- C2: the handoff controller scrubs the token from the location only
after the awaited fetch has resolved — so the exchange result is already
known when the scrub runs — and when the fetch rejects with a network
error the scrub line is skipped entirely and the token stays in the
browser-visible location. -/
theorem C2_scrub_after_result_and_skipped_on_network_error :
    urlStillHasToken .networkError = true ∧
    ClientEvent.tokenScrubbed ∉ handleSessionTokenExchange .networkError ∧
    handleSessionTokenExchange (.httpResponse false (some "Session token expired")) =
      [.exchangeRequested, .exchangeResultKnown, .tokenScrubbed,
       .renderedFallback] ∧
    handleSessionTokenExchange (.httpResponse true none) =
      [.exchangeRequested, .exchangeResultKnown, .tokenScrubbed,
       .renderedAuthenticated] := by
  decide

/-- C3 counterexample: a structurally well-formed token whose signature
does not verify is not rejected with any SignatureInvalid error — the
exchange succeeds and issues the session cookie. -/
theorem C3_counterexample :
    badSigToken.sigValid = false ∧
    (initializeSession (some badSigToken) 1000000 "production" []).1.status = 200 ∧
    (initializeSession (some badSigToken) 1000000 "production" []).1.cookie.isSome
      = true ∧
    (initializeSession (some badSigToken) 1000000 "production" []).1.errorMsg
      = none := by
  decide

/-- C3 amended: decoding is purely structural; the decode result and the
whole endpoint outcome are independent of signature validity, there is no
SignatureInvalid error, and the only decode failure is the
malformed-token one. -/
theorem C3_decode_never_verifies_signature (tok : RawToken) (nowMs : Nat)
    (env : String) (consumed : List String) :
    (∀ b, jwtDecode { tok with sigValid := b } = jwtDecode tok) ∧
    (∀ b, initializeSession (some { tok with sigValid := b }) nowMs env consumed =
      initializeSession (some tok) nowMs env consumed) ∧
    (tok.wellFormed = false →
      (initializeSession (some tok) nowMs env consumed).1 =
        errorResponse 401 "Invalid session token format") := by
  refine ⟨fun b => rfl, fun b => rfl, fun h => ?_⟩
  simp [initializeSession, jwtDecode, h]

/-- C3 witness: the amended theorem applied to the malformed token. -/
theorem C3_decode_never_verifies_signature_witness :
    (initializeSession (some malformedToken) 5 "production" []).1 =
      errorResponse 401 "Invalid session token format" :=
  (C3_decode_never_verifies_signature malformedToken 5 "production" []).2.2 rfl

/-- C4 counterexample: a token that is both of the wrong kind and expired
is rejected as expired, not as wrong kind — the endpoint checks expiry
before the kind claim, the reverse of the claimed order. -/
theorem C4_counterexample :
    wrongKindExpiredToken.payload.type ≠ some "session_init" ∧
    expCheck wrongKindExpiredToken.payload.exp 1000000 = true ∧
    (initializeSession (some wrongKindExpiredToken) 1000000 "production"
      []).1.errorMsg = some "Session token expired" ∧
    (initializeSession (some wrongKindExpiredToken) 1000000 "production"
      []).1.errorMsg ≠ some "Invalid token type" := by
  decide

/-- C4 amended: the endpoint validates in the order decode, then expiry,
then kind, short-circuiting on the first failure, and performs no replay
check at all (the store is untouched); in particular a token both of the
wrong kind and expired yields the Expired error. -/
theorem C4_check_order (tok : RawToken) (nowMs : Nat) (env : String)
    (consumed : List String) (hw : tok.wellFormed = true) :
    (expCheck tok.payload.exp nowMs = true →
      (initializeSession (some tok) nowMs env consumed).1 =
        errorResponse 401 "Session token expired") ∧
    (expCheck tok.payload.exp nowMs = false →
      tok.payload.type ≠ some "session_init" →
      (initializeSession (some tok) nowMs env consumed).1 =
        errorResponse 401 "Invalid token type") ∧
    (initializeSession (some tok) nowMs env consumed).2 = consumed := by
  have hd : jwtDecode tok = some tok.payload := by simp [jwtDecode, hw]
  refine ⟨fun he => ?_, fun he hk => ?_, initSession_state_unchanged _ _ _ _⟩
  · simp [initializeSession, hd, he]
  · simp [initializeSession, hd, he, hk]

/-- C4 witness: the amended order theorem at the wrong-kind expired
token — the expiry branch wins. -/
theorem C4_check_order_witness :
    (initializeSession (some wrongKindExpiredToken) 1000000 "production" []).1 =
      errorResponse 401 "Session token expired" :=
  (C4_check_order wrongKindExpiredToken 1000000 "production" [] rfl).1 (by decide)

/-- C5 counterexample: at the boundary instant now = expiresAt
(nowMs = 1000 * exp) the endpoint does not return Expired — the valid
token is accepted and the exchange succeeds, while the claim requires
every token with expiresAt ≤ now to be rejected as expired. -/
theorem C5_counterexample :
    validToken.payload.exp = some 2000 ∧
    (initializeSession (some validToken) (1000 * 2000) "production" []).1.status
      = 200 ∧
    (initializeSession (some validToken) (1000 * 2000) "production" []).1.errorMsg
      ≠ some "Session token expired" := by
  decide

/-- C5 amended: with a nonzero expiry claim, the endpoint returns Expired
for expiresAt strictly below now, even if the token was never consumed
(any store contents); at the boundary now = expiresAt the expiry test is
false and the token is not rejected as expired. -/
theorem C5_expiry_strict (tok : RawToken) (nowMs e : Nat) (env : String)
    (consumed : List String) (hw : tok.wellFormed = true)
    (he : tok.payload.exp = some e) (h0 : e ≠ 0) (hlt : 1000 * e < nowMs) :
    (initializeSession (some tok) nowMs env consumed).1 =
      errorResponse 401 "Session token expired" ∧
    (initializeSession (some tok) nowMs env consumed).2 = consumed ∧
    expCheck (some e) (1000 * e) = false := by
  have hd : jwtDecode tok = some tok.payload := by simp [jwtDecode, hw]
  have hexp : expCheck tok.payload.exp nowMs = true := by
    simp [expCheck, he, h0, hlt]
  exact ⟨by simp [initializeSession, hd, hexp],
    initSession_state_unchanged _ _ _ _,
    by simp [expCheck, h0]⟩

/-- C5 witness: the amended expiry theorem at the expired token, with a
nonempty store to exercise the never-consumed-independence. -/
theorem C5_expiry_strict_witness :
    (initializeSession (some expiredToken) 1000000 "production" ["x"]).1 =
      errorResponse 401 "Session token expired" :=
  (C5_expiry_strict expiredToken 1000000 10 "production" ["x"] rfl rfl
    (by decide) (by decide)).1

/-- C6: any well-formed token whose kind claim differs from the literal
session_init, and which does not trip the (earlier) expiry check, is
rejected with the Invalid-token-type error and no session cookie is
issued, regardless of signature validity. -/
theorem C6_wrong_kind_rejected (tok : RawToken) (nowMs : Nat) (env : String)
    (consumed : List String) (hw : tok.wellFormed = true)
    (hk : tok.payload.type ≠ some "session_init")
    (hne : expCheck tok.payload.exp nowMs = false) :
    (initializeSession (some tok) nowMs env consumed).1 =
      errorResponse 401 "Invalid token type" ∧
    (initializeSession (some tok) nowMs env consumed).1.cookie = none ∧
    (initializeSession (some tok) nowMs env consumed).2 = consumed := by
  have hd : jwtDecode tok = some tok.payload := by simp [jwtDecode, hw]
  have h1 : (initializeSession (some tok) nowMs env consumed).1 =
      errorResponse 401 "Invalid token type" := by
    simp [initializeSession, hd, hne, hk]
  exact ⟨h1, by rw [h1]; rfl, initSession_state_unchanged _ _ _ _⟩

/-- C6 witness: the kind-rejection theorem at the wrong-kind unexpired
token with a valid signature. -/
theorem C6_wrong_kind_rejected_witness :
    (initializeSession (some wrongKindToken) 1000000 "production" []).1 =
      errorResponse 401 "Invalid token type" :=
  (C6_wrong_kind_rejected wrongKindToken 1000000 "production" [] rfl
    (by decide) (by decide)).1

/-- C7 counterexample: a successful exchange does not record the tokenId
as consumed — the store is untouched even on the success path — which
contradicts the part of the claim that a successful call records the
consumed tokenId. -/
theorem C7_counterexample :
    validToken.payload.jti = some "tok-1" ∧
    (initializeSession (some validToken) 1000000 "development" []).1.status
      = 200 ∧
    (initializeSession (some validToken) 1000000 "development" []).2 = [] ∧
    "tok-1" ∉ (initializeSession (some validToken) 1000000 "development" []).2 := by
  decide

/-- C7 amended: no call — failing or successful — ever mutates the replay
store (the endpoint has none); every failing path, including the catch
path, issues no cookie and no success body, and only the success path
issues the session cookie. -/
theorem C7_failure_atomicity (st : Option RawToken) (nowMs : Nat)
    (env msg : String) (consumed : List String) :
    ((initializeSession st nowMs env consumed).2 = consumed) ∧
    ((initializeSession st nowMs env consumed).1.status ≠ 200 →
      (initializeSession st nowMs env consumed).1.cookie = none ∧
      (initializeSession st nowMs env consumed).1.success = false ∧
      (initializeSession st nowMs env consumed).1.user = none) ∧
    ((initializeSession st nowMs env consumed).1.status = 200 →
      (initializeSession st nowMs env consumed).1.cookie.isSome = true ∧
      (initializeSession st nowMs env consumed).1.success = true) ∧
    ((sessionInitCatch env msg).cookie = none ∧
      (sessionInitCatch env msg).success = false) := by
  obtain ⟨hmsg, hdet, hfail, hsucc, hiff⟩ := initSession_spec st nowMs env consumed
  refine ⟨initSession_state_unchanged _ _ _ _, ?_, ?_, rfl, rfl⟩
  · intro h
    cases hfc : failClass st nowMs with
    | none => exact absurd (hiff.mpr hfc) h
    | some fc =>
      rw [hfail fc hfc]
      exact ⟨rfl, rfl, rfl⟩
  · intro h
    obtain ⟨tok, p, hst, hd, hres⟩ := hsucc (hiff.mp h)
    rw [hres]
    exact ⟨rfl, rfl⟩

/-- C7 witness: the amended theorem at a concrete failing input. -/
theorem C7_failure_atomicity_witness :
    (initializeSession (some wrongKindToken) 1000000 "production" ["y"]).1.cookie
      = none ∧
    (initializeSession (some wrongKindToken) 1000000 "production" ["y"]).1.success
      = false ∧
    (initializeSession (some wrongKindToken) 1000000 "production" ["y"]).1.user
      = none :=
  (C7_failure_atomicity (some wrongKindToken) 1000000 "production" "boom"
    ["y"]).2.1 (by decide)

/-- C8 counterexample: two failing exchanges at the same time, environment
and store, differing only in the token contents, produce different error
bodies — the expired token and the wrong-kind token both fail with 401 but
receive distinct (though both generic) error strings. -/
theorem C8_counterexample :
    (initializeSession (some expiredToken) 1000000 "production" []).1.status
      = 401 ∧
    (initializeSession (some wrongKindToken) 1000000 "production" []).1.status
      = 401 ∧
    (initializeSession (some expiredToken) 1000000 "production" []).1.errorMsg ≠
      (initializeSession (some wrongKindToken) 1000000 "production"
        []).1.errorMsg := by
  decide

/-- C8 amended: every failing response carries exactly the fixed
generic error string of its failure class, with no details and no user
data; outside development mode the catch path exposes no exception
detail; the client-visible message equals that generic string; and two
requests with the same failure class produce identical error bodies
whatever their token contents. -/
theorem C8_error_opacity (st1 st2 : Option RawToken) (nowMs : Nat)
    (env msg : String) (consumed : List String) (hdev : env ≠ "development") :
    (∀ fc, failClass st1 nowMs = some fc →
      (initializeSession st1 nowMs env consumed).1.errorMsg =
        some (failMessage fc) ∧
      (initializeSession st1 nowMs env consumed).1.details = none ∧
      (initializeSession st1 nowMs env consumed).1.user = none ∧
      clientErrorMessage (initializeSession st1 nowMs env consumed).1.errorMsg =
        failMessage fc) ∧
    ((sessionInitCatch env msg).details = none ∧
      (sessionInitCatch env msg).errorMsg = some "Session initialization failed") ∧
    (failClass st1 nowMs = failClass st2 nowMs →
      (initializeSession st1 nowMs env consumed).1.errorMsg =
        (initializeSession st2 nowMs env consumed).1.errorMsg) := by
  obtain ⟨hmsg1, hdet1, hfail1, -, -⟩ := initSession_spec st1 nowMs env consumed
  obtain ⟨hmsg2, -, -, -, -⟩ := initSession_spec st2 nowMs env consumed
  refine ⟨?_, ⟨?_, rfl⟩, ?_⟩
  · intro fc hfc
    rw [hfail1 fc hfc]
    refine ⟨rfl, rfl, rfl, ?_⟩
    cases fc <;> rfl
  · simp [sessionInitCatch, hdev]
  · intro h
    rw [hmsg1, hmsg2, h]

/-- C8 witness: two failing tokens with different claims but the same
failure class get identical error bodies, in production mode. -/
theorem C8_error_opacity_witness :
    (initializeSession (some expiredToken) 1000000 "production" []).1.errorMsg =
      (initializeSession (some wrongKindExpiredToken) 1000000 "production"
        []).1.errorMsg :=
  (C8_error_opacity (some expiredToken) (some wrongKindExpiredToken) 1000000
    "production" "boom" [] (by decide)).2.2 (by decide)

/-- C9: every successful exchange delivers the session credential as a
cookie outside the JSON body (the body type carries only the success
flag, message and user display fields), HTTP-only, SameSite lax, with a
24-hour (multi-hour) lifetime, and with the secure flag exactly in
production mode. -/
theorem C9_session_cookie (st : Option RawToken) (nowMs : Nat) (env : String)
    (consumed : List String)
    (h : (initializeSession st nowMs env consumed).1.status = 200) :
    ∃ c, (initializeSession st nowMs env consumed).1.cookie = some c ∧
      c.httpOnly = true ∧
      c.sameSite = "lax" ∧
      c.maxAge = 24 * 60 * 60 * 1000 ∧
      2 * 60 * 60 * 1000 ≤ c.maxAge ∧
      (c.secure = true ↔ env = "production") ∧
      (initializeSession st nowMs env consumed).1.errorMsg = none ∧
      (initializeSession st nowMs env consumed).1.user.isSome = true := by
  obtain ⟨-, -, -, hsucc, hiff⟩ := initSession_spec st nowMs env consumed
  obtain ⟨tok, p, hst, hd, hres⟩ := hsucc (hiff.mp h)
  rw [hres]
  refine ⟨_, rfl, rfl, rfl, rfl, by norm_num, ?_, rfl, rfl⟩
  exact beq_iff_eq

/-- C9 witness: the cookie theorem applied to the valid token in the
production environment. -/
theorem C9_session_cookie_witness :
    ∃ c, (initializeSession (some validToken) 1000000 "production" []).1.cookie
        = some c ∧
      c.httpOnly = true ∧
      c.sameSite = "lax" ∧
      c.maxAge = 24 * 60 * 60 * 1000 ∧
      2 * 60 * 60 * 1000 ≤ c.maxAge ∧
      (c.secure = true ↔ "production" = "production") ∧
      (initializeSession (some validToken) 1000000 "production" []).1.errorMsg
        = none ∧
      (initializeSession (some validToken) 1000000 "production" []).1.user.isSome
        = true :=
  C9_session_cookie (some validToken) 1000000 "production" [] (by decide)

/-- C10: a decodable token of kind session_init carrying no expiry claim
at all never trips the expiry check, and the exchange succeeds with a
session cookie for every current time, however late. -/
theorem C10_missing_exp_never_expired (tok : RawToken) (nowMs : Nat)
    (env : String) (consumed : List String) (hw : tok.wellFormed = true)
    (he : tok.payload.exp = none) (hk : tok.payload.type = some "session_init") :
    expCheck tok.payload.exp nowMs = false ∧
    (initializeSession (some tok) nowMs env consumed).1.status = 200 ∧
    (initializeSession (some tok) nowMs env consumed).1.success = true ∧
    (initializeSession (some tok) nowMs env consumed).1.errorMsg ≠
      some "Session token expired" ∧
    (initializeSession (some tok) nowMs env consumed).1.cookie.isSome = true := by
  have hd : jwtDecode tok = some tok.payload := by simp [jwtDecode, hw]
  have h1 : expCheck tok.payload.exp nowMs = false := by simp [expCheck, he]
  have h2 : (initializeSession (some tok) nowMs env consumed).1 =
      successResponse tok.payload nowMs env := by
    simp [initializeSession, hd, h1, hk]
  refine ⟨h1, ?_, ?_, ?_, ?_⟩ <;> rw [h2]
  · rfl
  · rfl
  · simp [successResponse]
  · rfl

/-- C10 witness: the no-expiry token accepted at a time far in the
future. -/
theorem C10_missing_exp_never_expired_witness :
    (initializeSession (some noExpToken) 999999999999999 "production" []).1.status
      = 200 ∧
    (initializeSession (some noExpToken) 999999999999999 "production"
      []).1.success = true :=
  ⟨(C10_missing_exp_never_expired noExpToken 999999999999999 "production" []
      rfl rfl rfl).2.1,
   (C10_missing_exp_never_expired noExpToken 999999999999999 "production" []
      rfl rfl rfl).2.2.1⟩

end BrokerAuthWeb
